import Mathlib

/-!
Verification of the `lss_observations` repository against its specification.

The repository is a collection of lookup functions returning published
large-scale-structure measurements, plus parametric Schechter-function
stellar mass function models.  Each Python routine is shallowly embedded
below: dispatch over string/float selectors becomes a Lean function,
file access is modelled by passing the would-be file contents as an
explicit parameter (a function from filename to a numeric table), and
Python floats are idealised as real numbers.  Outcomes of a call are
modelled with an `Except`-style result type that distinguishes normal
returns, raised errors (the spec's error taxonomy), raised IndexErrors,
and a printed-diagnostic-then-`None` return.
-/

namespace LssObs

open Real

/-- The specification's error taxonomy (§7): in the source every one of
these is a Python `ValueError` raised with a message; the constructor
records which selector stage rejected the call. -/
inductive LssError where
  | unsupportedSample
  | unsupportedBin
  | unsupportedMethod
  | unsupportedCategory
  deriving DecidableEq

/-- Outcome of calling one of the embedded Python routines: a normal
return value, a raised error from the taxonomy, a raised IndexError, or
a printed diagnostic followed by returning `None`. -/
inductive PyResult (α : Type) where
  | ok (val : α)
  | raised (e : LssError)
  | indexError
  | printed (msg : String)

/-- A parsed numeric data file: a list of rows of numbers. -/
abbrev Table := List (List ℝ)

/-- Column extraction from a parsed table (missing entries default to 0,
as every reachable use in the source has rectangular data). -/
def col (t : Table) (j : ℕ) : List ℝ :=
  t.map (fun r => r.getD j 0)

/-- Evaluating `Real.logb 10` at `10 ^ c` gives `c`; used to evaluate the embedded
routines at the powers of ten appearing in the claims. -/
theorem logb_ten_rpow (c : ℝ) : Real.logb 10 ((10 : ℝ) ^ c) = c :=
  Real.logb_rpow (by norm_num) (by norm_num)

/-!  ## Schechter-function components (`stellar_mass_functions.py`)  -/

/-- The single log-mass Schechter component, transcribed from
`Log_Schechter` (stellar_mass_functions.py lines 384-393):
`val = ln(10)*phi0 * 10^((x-x0)*(1+alpha)) * exp(-10^(x-x0))`. -/
noncomputable def Log_Schechter (phi0 x0 alpha x : ℝ) : ℝ :=
  Real.log 10 * phi0 * (10 : ℝ) ^ ((x - x0) * (1 + alpha)) *
    Real.exp (-((10 : ℝ) ^ (x - x0)))

/-- C4: for every parameter triple and input, `Log_Schechter` equals
`ln(10)*phi0 * t^(1+alpha) * exp(-t)` with `t = 10^(x-x0)`; and the
component `(phi0, x0, alpha) = (0.01, 10.5, -1)` evaluated at `x = x0`
returns `ln(10) * 0.01 * exp (-1)`. -/
theorem C4_log_schechter_formula :
    (∀ phi0 x0 alpha x : ℝ,
      Log_Schechter phi0 x0 alpha x =
        Real.log 10 * phi0 * ((10 : ℝ) ^ (x - x0)) ^ (1 + alpha) *
          Real.exp (-((10 : ℝ) ^ (x - x0)))) ∧
    Log_Schechter 0.01 10.5 (-1) 10.5 = Real.log 10 * 0.01 * Real.exp (-1) := by
  constructor
  · intro phi0 x0 alpha x
    rw [Log_Schechter, Real.rpow_mul (by norm_num : (0:ℝ) ≤ 10)]
  · rw [Log_Schechter]
    norm_num

/-- Helper: rewrite a Schechter component as `C * exp(log 10 * u * (1+alpha) - 10^u)`
with `u = x - x0`, valid unconditionally. -/
theorem log_schechter_exp_form (phi0 x0 alpha x : ℝ) :
    Log_Schechter phi0 x0 alpha x =
      Real.log 10 * phi0 *
        Real.exp (Real.log 10 * ((x - x0) * (1 + alpha)) - (10 : ℝ) ^ (x - x0)) := by
  rw [Log_Schechter, Real.rpow_def_of_pos (by norm_num : (0:ℝ) < 10), mul_assoc,
    ← Real.exp_add]
  ring_nf

/-- C5 (amended): a single Schechter component with positive normalization
and slope `-2 < alpha ≤ 0` is strictly decreasing beyond the characteristic
scale `x0`. -/
theorem C5_schechter_decreasing_beyond_x0 (phi0 x0 alpha x1 x2 : ℝ)
    (hphi : 0 < phi0) (halpha2 : -2 < alpha) (halpha0 : alpha ≤ 0)
    (h01 : x0 < x1) (h12 : x1 < x2) :
    Log_Schechter phi0 x0 alpha x2 < Log_Schechter phi0 x0 alpha x1 := by
  have hC : 0 < Real.log 10 * phi0 :=
    mul_pos (Real.log_pos (by norm_num)) hphi
  rw [log_schechter_exp_form, log_schechter_exp_form]
  apply mul_lt_mul_of_pos_left _ hC
  apply Real.exp_lt_exp.mpr
  set u1 : ℝ := x1 - x0 with hu1
  set u2 : ℝ := x2 - x0 with hu2
  have hu1pos : 0 < u1 := by simp [hu1]; linarith
  have hu12 : u1 < u2 := by simp [hu1, hu2]; linarith
  set t1 : ℝ := (10 : ℝ) ^ u1 with ht1
  set t2 : ℝ := (10 : ℝ) ^ u2 with ht2
  have ht1pos : (0:ℝ) < t1 := Real.rpow_pos_of_pos (by norm_num) _
  have ht1one : (1:ℝ) < t1 := by
    rw [ht1]
    exact (Real.one_lt_rpow_iff_of_pos (by norm_num)).mpr (Or.inl ⟨by norm_num, hu1pos⟩)
  have ht12 : t1 < t2 := by
    rw [ht1, ht2]
    exact (Real.rpow_lt_rpow_left_iff (by norm_num)).mpr hu12
  -- log 10 * u = log t, so the goal is (1+alpha)*(log t2 - log t1) < t2 - t1
  have hlt1 : Real.log 10 * u1 = Real.log t1 := by
    rw [ht1, Real.log_rpow (by norm_num)]; ring
  have hlt2 : Real.log 10 * u2 = Real.log t2 := by
    rw [ht2, Real.log_rpow (by norm_num)]; ring
  have key : (1 + alpha) * (Real.log t2 - Real.log t1) < t2 - t1 := by
    have hd : 0 < Real.log t2 - Real.log t1 := by
      have := Real.log_lt_log ht1pos ht12
      linarith
    have h1 : (1 + alpha) * (Real.log t2 - Real.log t1) ≤ Real.log t2 - Real.log t1 := by
      nlinarith
    have h2 : Real.log t2 - Real.log t1 < t2 - t1 := by
      have hratio : Real.log (t2 / t1) < t2 / t1 - 1 :=
        Real.log_lt_sub_one_of_pos (by positivity)
          (by
            have : (1:ℝ) < t2 / t1 := (one_lt_div ht1pos).mpr ht12
            linarith)
      rw [Real.log_div (by linarith) (by linarith)] at hratio
      have hdiv : t2 / t1 - 1 ≤ t2 - t1 := by
        rw [div_sub_one (by linarith : t1 ≠ 0)]
        rw [div_le_iff ht1pos]
        nlinarith
      linarith
    linarith
  have hg1 : Real.log 10 * (u1 * (1 + alpha)) = (1 + alpha) * Real.log t1 := by
    rw [← hlt1]; ring
  have hg2 : Real.log 10 * (u2 * (1 + alpha)) = (1 + alpha) * Real.log t2 := by
    rw [← hlt2]; ring
  rw [hg1, hg2]
  nlinarith [key]

/-- C5 witness: the amended theorem applied at the concrete component
`(phi0, x0, alpha) = (1, 0, 0)` and the points `1 < 2` beyond `x0 = 0`. -/
theorem C5_schechter_decreasing_beyond_x0_witness :
    (0:ℝ) < 1 ∧ (-2:ℝ) < 0 ∧ (0:ℝ) ≤ 0 ∧ (0:ℝ) < 1 ∧ (1:ℝ) < 2 ∧
      Log_Schechter 1 0 0 2 < Log_Schechter 1 0 0 1 :=
  ⟨by norm_num, by norm_num, le_refl 0, by norm_num, by norm_num,
    C5_schechter_decreasing_beyond_x0 1 0 0 1 2 (by norm_num) (by norm_num)
      (le_refl 0) (by norm_num) (by norm_num)⟩

/-- C5 counterexample: the claim as stated fails.  The component
`(phi0, x0, alpha) = (1, 0, 99)` has slope `alpha > -2`, yet with
`x0 = 0 < x1 = 1 < x2 = 2` its value strictly increases from `x1` to
`x2` (the power-law growth `t^100` dominates `exp(-t)` until
`t = 10^(x-x0)` reaches `100`). -/
theorem C5_counterexample :
    (-2:ℝ) < 99 ∧ (0:ℝ) < 1 ∧ (1:ℝ) < 2 ∧
      Log_Schechter 1 0 99 1 < Log_Schechter 1 0 99 2 := by
  refine ⟨by norm_num, by norm_num, by norm_num, ?_⟩
  rw [Log_Schechter, Log_Schechter]
  have h1 : ((1:ℝ) - 0) * (1 + 99) = ((100:ℕ) : ℝ) := by norm_num
  have h2 : ((2:ℝ) - 0) * (1 + 99) = ((200:ℕ) : ℝ) := by norm_num
  have h3 : ((1:ℝ) - 0) = ((1:ℕ) : ℝ) := by norm_num
  have h4 : ((2:ℝ) - 0) = ((2:ℕ) : ℝ) := by norm_num
  rw [h1, h2, h3, h4, Real.rpow_natCast, Real.rpow_natCast, Real.rpow_natCast,
    Real.rpow_natCast]
  have e90 : Real.exp (-(10:ℝ)^(1:ℕ)) = Real.exp 90 * Real.exp (-(10:ℝ)^(2:ℕ)) := by
    rw [← Real.exp_add]; norm_num
  rw [e90]
  have hexp90 : Real.exp 90 < (10:ℝ) ^ (100:ℕ) := by
    have h90 : Real.exp 90 = Real.exp 1 ^ (90:ℕ) := by
      rw [← Real.exp_nat_mul]; norm_num
    have hlt : Real.exp 1 ^ (90:ℕ) < (3:ℝ) ^ (90:ℕ) := by
      apply pow_lt_pow_left _ (le_of_lt (Real.exp_pos 1)) (by norm_num)
      exact lt_trans Real.exp_one_lt_d9 (by norm_num)
    have h3_90 : (3:ℝ) ^ (90:ℕ) < (10:ℝ) ^ (100:ℕ) := by
      calc (3:ℝ) ^ (90:ℕ) < (10:ℝ) ^ (90:ℕ) := by
              apply pow_lt_pow_left (by norm_num) (by norm_num) (by norm_num)
        _ ≤ (10:ℝ) ^ (100:ℕ) := by
              apply pow_le_pow_right (by norm_num) (by norm_num)
    rw [h90]
    exact lt_trans hlt h3_90
  have hepos : (0:ℝ) < Real.exp (-(10:ℝ)^(2:ℕ)) := Real.exp_pos _
  have hlogpos : (0:ℝ) < Real.log 10 := Real.log_pos (by norm_num)
  have h200 : ((10:ℝ) ^ (200:ℕ)) = (10:ℝ) ^ (100:ℕ) * (10:ℝ) ^ (100:ℕ) := by
    rw [← pow_add]
  have hfinal : (10:ℝ) ^ (100:ℕ) * (Real.exp 90 * Real.exp (-(10:ℝ)^(2:ℕ))) <
      (10:ℝ) ^ (200:ℕ) * Real.exp (-(10:ℝ)^(2:ℕ)) := by
    rw [h200, mul_assoc]
    apply mul_lt_mul_of_pos_left _ (by positivity : (0:ℝ) < (10:ℝ)^(100:ℕ))
    exact mul_lt_mul_of_pos_right hexp90 hepos
  nlinarith [hfinal, hlogpos]

/-!  ## Piecewise Li & White 2009 model (`stellar_mass_functions.py` lines 15-85)  -/

open Classical in
/-- The interval indicator from `LiWhite_2009_phi.__init__` (lines 47-56):
`1` when `x1 < x ≤ x2` and `0` otherwise.  The source passes `±np.inf`
as bounds, modelled here by `⊥`/`⊤` in `EReal`. -/
noncomputable def interval (x1 x2 : EReal) (x : ℝ) : ℝ :=
  if (x : EReal) ≤ x2 ∧ x1 < (x : EReal) then 1 else 0

/-- The summed piecewise model `s = s1 + s2 + s3` built in
`LiWhite_2009_phi.__init__` (lines 59-64), as a function of the
log-mass `x`. -/
noncomputable def LiWhite_s (x : ℝ) : ℝ :=
  Log_Schechter 0.01465 9.6124 (-1.1309) x * interval ⊥ ((9.33:ℝ) : EReal) x +
  Log_Schechter 0.01327 10.3702 (-0.9004) x * interval ((9.33:ℝ) : EReal) ((10.67:ℝ) : EReal) x +
  Log_Schechter 0.0044 10.7104 (-1.9918) x * interval ((10.67:ℝ) : EReal) ⊤ x

/-- Embedding of `LiWhite_2009_phi.__call__` (lines 67-85): take `log10` of the
stellar mass and evaluate the summed model. -/
noncomputable def LiWhite_2009_phi (mstar : ℝ) : ℝ :=
  LiWhite_s (Real.logb 10 mstar)

/-- C6: the interval indicator is `1` exactly on the half-open interval
`(x1, x2]` and `0` otherwise; consequently `LiWhite_2009_phi` reduces to
the single middle Schechter component for `9.33 < log10(mstar) ≤ 10.67`,
to the single low-mass component for `log10(mstar) ≤ 9.33`, and to the
single high-mass component for `log10(mstar) > 10.67`. -/
theorem C6_liwhite_piecewise :
    (∀ (x1 x2 : EReal) (x : ℝ),
      (x1 < (x : EReal) ∧ (x : EReal) ≤ x2 → interval x1 x2 x = 1) ∧
      (¬(x1 < (x : EReal) ∧ (x : EReal) ≤ x2) → interval x1 x2 x = 0)) ∧
    (∀ mstar : ℝ, 9.33 < Real.logb 10 mstar → Real.logb 10 mstar ≤ 10.67 →
      LiWhite_2009_phi mstar =
        Log_Schechter 0.01327 10.3702 (-0.9004) (Real.logb 10 mstar)) ∧
    (∀ mstar : ℝ, Real.logb 10 mstar ≤ 9.33 →
      LiWhite_2009_phi mstar =
        Log_Schechter 0.01465 9.6124 (-1.1309) (Real.logb 10 mstar)) ∧
    (∀ mstar : ℝ, 10.67 < Real.logb 10 mstar →
      LiWhite_2009_phi mstar =
        Log_Schechter 0.0044 10.7104 (-1.9918) (Real.logb 10 mstar)) := by
  have hind : ∀ (x1 x2 : EReal) (x : ℝ),
      (x1 < (x : EReal) ∧ (x : EReal) ≤ x2 → interval x1 x2 x = 1) ∧
      (¬(x1 < (x : EReal) ∧ (x : EReal) ≤ x2) → interval x1 x2 x = 0) := by
    intro x1 x2 x
    constructor
    · intro h
      rw [interval, if_pos ⟨h.2, h.1⟩]
    · intro h
      rw [interval, if_neg (fun hc => h ⟨hc.2, hc.1⟩)]
  refine ⟨hind, ?_, ?_, ?_⟩
  · intro mstar hlo hhi
    set x := Real.logb 10 mstar with hx
    have h1 : interval ⊥ ((9.33:ℝ) : EReal) x = 0 := by
      apply (hind _ _ _).2
      intro hc
      have : x ≤ 9.33 := by exact_mod_cast hc.2
      linarith
    have h2 : interval ((9.33:ℝ) : EReal) ((10.67:ℝ) : EReal) x = 1 := by
      apply (hind _ _ _).1
      exact ⟨by exact_mod_cast hlo, by exact_mod_cast hhi⟩
    have h3 : interval ((10.67:ℝ) : EReal) ⊤ x = 0 := by
      apply (hind _ _ _).2
      intro hc
      have : (10.67:ℝ) < x := by exact_mod_cast hc.1
      linarith
    rw [LiWhite_2009_phi, LiWhite_s, ← hx, h1, h2, h3]
    ring
  · intro mstar hhi
    set x := Real.logb 10 mstar with hx
    have h1 : interval ⊥ ((9.33:ℝ) : EReal) x = 1 := by
      apply (hind _ _ _).1
      exact ⟨bot_lt_iff_ne_bot.mpr (by simp), by exact_mod_cast hhi⟩
    have h2 : interval ((9.33:ℝ) : EReal) ((10.67:ℝ) : EReal) x = 0 := by
      apply (hind _ _ _).2
      intro hc
      have : (9.33:ℝ) < x := by exact_mod_cast hc.1
      linarith
    have h3 : interval ((10.67:ℝ) : EReal) ⊤ x = 0 := by
      apply (hind _ _ _).2
      intro hc
      have : (10.67:ℝ) < x := by exact_mod_cast hc.1
      linarith
    rw [LiWhite_2009_phi, LiWhite_s, ← hx, h1, h2, h3]
    ring
  · intro mstar hlo
    set x := Real.logb 10 mstar with hx
    have h1 : interval ⊥ ((9.33:ℝ) : EReal) x = 0 := by
      apply (hind _ _ _).2
      intro hc
      have : x ≤ 9.33 := by exact_mod_cast hc.2
      linarith
    have h2 : interval ((9.33:ℝ) : EReal) ((10.67:ℝ) : EReal) x = 0 := by
      apply (hind _ _ _).2
      intro hc
      have : x ≤ 10.67 := by exact_mod_cast hc.2
      linarith
    have h3 : interval ((10.67:ℝ) : EReal) ⊤ x = 1 := by
      apply (hind _ _ _).1
      exact ⟨by exact_mod_cast hlo, le_top⟩
    rw [LiWhite_2009_phi, LiWhite_s, ← hx, h1, h2, h3]
    ring

/-- C6 witness: the theorem applied at concrete masses `10^10`, `10^5`
and `10^11` (one per mass regime) and at the concrete interval `(0, 1]`
with the point `1` inside and the point `2` outside. -/
theorem C6_liwhite_piecewise_witness :
    (((0:ℝ) : EReal) < ((1:ℝ) : EReal) ∧ ((1:ℝ) : EReal) ≤ ((1:ℝ) : EReal) ∧
      interval ((0:ℝ) : EReal) ((1:ℝ) : EReal) 1 = 1) ∧
    (interval ((0:ℝ) : EReal) ((1:ℝ) : EReal) 2 = 0) ∧
    (9.33 < Real.logb 10 ((10:ℝ) ^ (10:ℝ)) ∧
      Real.logb 10 ((10:ℝ) ^ (10:ℝ)) ≤ 10.67 ∧
      LiWhite_2009_phi ((10:ℝ) ^ (10:ℝ)) =
        Log_Schechter 0.01327 10.3702 (-0.9004) (Real.logb 10 ((10:ℝ) ^ (10:ℝ)))) ∧
    (Real.logb 10 ((10:ℝ) ^ (5:ℝ)) ≤ 9.33 ∧
      LiWhite_2009_phi ((10:ℝ) ^ (5:ℝ)) =
        Log_Schechter 0.01465 9.6124 (-1.1309) (Real.logb 10 ((10:ℝ) ^ (5:ℝ)))) ∧
    (10.67 < Real.logb 10 ((10:ℝ) ^ (11:ℝ)) ∧
      LiWhite_2009_phi ((10:ℝ) ^ (11:ℝ)) =
        Log_Schechter 0.0044 10.7104 (-1.9918) (Real.logb 10 ((10:ℝ) ^ (11:ℝ)))) := by
  have l10 : Real.logb 10 ((10:ℝ) ^ (10:ℝ)) = 10 := logb_ten_rpow 10
  have l5 : Real.logb 10 ((10:ℝ) ^ (5:ℝ)) = 5 := logb_ten_rpow 5
  have l11 : Real.logb 10 ((10:ℝ) ^ (11:ℝ)) = 11 := logb_ten_rpow 11
  refine ⟨⟨?_, le_refl _, ?_⟩, ?_, ⟨?_, ?_, ?_⟩, ⟨?_, ?_⟩, ⟨?_, ?_⟩⟩
  · exact_mod_cast (by norm_num : (0:ℝ) < 1)
  · exact (C6_liwhite_piecewise.1 _ _ 1).1
      ⟨by exact_mod_cast (by norm_num : (0:ℝ) < 1), le_refl _⟩
  · exact (C6_liwhite_piecewise.1 _ _ 2).2
      (fun hc => by
        have : (2:ℝ) ≤ 1 := by exact_mod_cast hc.2
        linarith)
  · rw [l10]; norm_num
  · rw [l10]; norm_num
  · exact C6_liwhite_piecewise.2.1 _ (by rw [l10]; norm_num) (by rw [l10]; norm_num)
  · rw [l5]; norm_num
  · exact C6_liwhite_piecewise.2.2.1 _ (by rw [l5]; norm_num)
  · rw [l11]; norm_num
  · exact C6_liwhite_piecewise.2.2.2 _ (by rw [l11]; norm_num)

/-!  ## Tomczak et al. 2014 model (`stellar_mass_functions.py` lines 269-381)  -/

/-- Redshift bin boundaries from `Tomczak_2014_phi.__init__` line 300
(note the duplicated `2.5`). -/
noncomputable def tomczak_z_bins : List ℝ :=
  [0.2, 0.5, 0.75, 1.0, 1.25, 1.5, 2.0, 2.5, 2.5, 3.0]

/-- Coefficients `phi1` for the `'all'` sample (line 301). -/
noncomputable def tomczak_phi1_all : List ℝ :=
  [(10:ℝ)^(-2.54:ℝ), (10:ℝ)^(-2.55:ℝ), (10:ℝ)^(-2.56:ℝ), (10:ℝ)^(-2.72:ℝ),
   (10:ℝ)^(-2.78:ℝ), (10:ℝ)^(-3.05:ℝ), (10:ℝ)^(-3.80:ℝ), (10:ℝ)^(-4.54:ℝ)]

/-- Coefficients `x1` for the `'all'` sample (line 302). -/
noncomputable def tomczak_x1_all : List ℝ :=
  [10.78, 10.70, 10.66, 10.54, 10.61, 10.74, 10.69, 10.74]

/-- Coefficients `alpha1` for the `'all'` sample (line 303). -/
noncomputable def tomczak_alpha1_all : List ℝ :=
  [-0.98, -0.39, -0.37, 0.30, -0.12, 0.04, 1.03, 1.62]

/-- Coefficients `phi2` for the `'all'` sample (line 304). -/
noncomputable def tomczak_phi2_all : List ℝ :=
  [(10:ℝ)^(-4.29:ℝ), (10:ℝ)^(-3.15:ℝ), (10:ℝ)^(-3.39:ℝ), (10:ℝ)^(-3.17:ℝ),
   (10:ℝ)^(-3.43:ℝ), (10:ℝ)^(-3.38:ℝ), (10:ℝ)^(-3.26:ℝ), (10:ℝ)^(-3.69:ℝ)]

/-- Coefficients `alpha2` for the `'all'` sample (line 306);
`x2_all = x1_all` (line 305). -/
noncomputable def tomczak_alpha2_all : List ℝ :=
  [-1.90, -1.53, -1.61, -1.45, -1.56, -1.49, -1.33, -1.57]

/-- Coefficients `phi1` for the `'star-forming'` sample (line 309). -/
noncomputable def tomczak_phi1_sf : List ℝ :=
  [(10:ℝ)^(-2.67:ℝ), (10:ℝ)^(-2.97:ℝ), (10:ℝ)^(-2.81:ℝ), (10:ℝ)^(-2.98:ℝ),
   (10:ℝ)^(-3.04:ℝ), (10:ℝ)^(-3.37:ℝ), (10:ℝ)^(-4.30:ℝ), (10:ℝ)^(-4.95:ℝ)]

/-- Coefficients `x1` for the `'star-forming'` sample (line 310). -/
noncomputable def tomczak_x1_sf : List ℝ :=
  [10.59, 10.65, 10.56, 10.44, 10.69, 10.59, 10.58, 10.61]

/-- Coefficients `alpha1` for the `'star-forming'` sample (line 311). -/
noncomputable def tomczak_alpha1_sf : List ℝ :=
  [-1.08, -0.97, -0.46, 0.53, -0.55, 0.75, 2.06, 2.36]

/-- Coefficients `phi2` for the `'star-forming'` sample (line 312). -/
noncomputable def tomczak_phi2_sf : List ℝ :=
  [(10:ℝ)^(-4.46:ℝ), (10:ℝ)^(-3.34:ℝ), (10:ℝ)^(-3.36:ℝ), (10:ℝ)^(-3.11:ℝ),
   (10:ℝ)^(-3.59:ℝ), (10:ℝ)^(-3.28:ℝ), (10:ℝ)^(-3.28:ℝ), (10:ℝ)^(-3.71:ℝ)]

/-- Coefficients `alpha2` for the `'star-forming'` sample (line 314);
`x2_sf = x1_all` (line 313, as in the source). -/
noncomputable def tomczak_alpha2_sf : List ℝ :=
  [-2.00, -1.58, -1.61, -1.44, -1.62, -1.47, -1.38, -1.67]

/-- Coefficients `phi1` for the `'quiescent'` sample (line 317). -/
noncomputable def tomczak_phi1_q : List ℝ :=
  [(10:ℝ)^(-2.76:ℝ), (10:ℝ)^(-2.67:ℝ), (10:ℝ)^(-2.81:ℝ), (10:ℝ)^(-3.03:ℝ),
   (10:ℝ)^(-3.36:ℝ), (10:ℝ)^(-3.41:ℝ), (10:ℝ)^(-3.59:ℝ), (10:ℝ)^(-4.22:ℝ)]

/-- Coefficients `x1` for the `'quiescent'` sample (line 318). -/
noncomputable def tomczak_x1_q : List ℝ :=
  [10.75, 10.68, 10.63, 10.63, 10.49, 10.77, 10.69, 9.95]

/-- Coefficients `alpha1` for the `'quiescent'` sample (line 319). -/
noncomputable def tomczak_alpha1_q : List ℝ :=
  [0.47, 0.10, 0.04, 0.11, 0.85, -0.19, 0.37, 0.62]

/-- Coefficients `phi2` for the `'quiescent'` sample (line 320). -/
noncomputable def tomczak_phi2_q : List ℝ :=
  [(10:ℝ)^(-5.21:ℝ), (10:ℝ)^(-4.29:ℝ), (10:ℝ)^(-4.40:ℝ), (10:ℝ)^(-4.80:ℝ),
   (10:ℝ)^(-3.72:ℝ), (10:ℝ)^(-3.91:ℝ), (10:ℝ)^(-6.95:ℝ), (10:ℝ)^(-4.51:ℝ)]

/-- Coefficients `alpha2` for the `'quiescent'` sample (line 322);
`x2_q = x1_all` (line 321, as in the source). -/
noncomputable def tomczak_alpha2_q : List ℝ :=
  [-1.97, -1.69, -1.51, -1.57, -0.54, -0.18, -3.07, -2.51]

open Classical in
/-- Embedding of `np.searchsorted(a, v)` with the default side `'left'` on a sorted
array: the number of elements strictly below `v`, i.e. the insertion
index keeping everything before it `< v`. -/
noncomputable def searchsorted (a : List ℝ) (v : ℝ) : ℕ :=
  a.countP (fun x => decide (x < v))

/-- The double-Schechter bracket model `s1 + s2` built in
`Tomczak_2014_phi.__init__` (lines 328-347) for bracket `i` of one
sample's coefficient table, evaluated at log-mass `x`. -/
noncomputable def tomczak_s (phi1 x1 alpha1 phi2 x2 alpha2 : List ℝ) (i : ℕ) (x : ℝ) : ℝ :=
  Log_Schechter (phi1.getD i 0) (x1.getD i 0) (alpha1.getD i 0) x +
  Log_Schechter (phi2.getD i 0) (x2.getD i 0) (alpha2.getD i 0) x

open Classical in
/-- Embedding of `Tomczak_2014_phi.__call__` (lines 349-381): convert the input mass
to the h=0.7 convention, take `log10`, pick the redshift bracket with
`searchsorted`, then dispatch on the type string.  Indexing the
8-element model array at `i ≥ 8` raises an IndexError (modelled by
`.indexError`); an unrecognized type prints `'type not available'` and
returns `None` (modelled by `.printed`). -/
noncomputable def Tomczak_2014_phi_call (redshift : ℝ) (type : String) (mstar : ℝ) :
    PyResult ℝ :=
  let littleh : ℝ := 0.7
  let m := Real.logb 10 (mstar / littleh ^ 2)
  let i := searchsorted tomczak_z_bins redshift
  if type = "all" then
    if i < 8 then
      .ok (tomczak_s tomczak_phi1_all tomczak_x1_all tomczak_alpha1_all
        tomczak_phi2_all tomczak_x1_all tomczak_alpha2_all i m / littleh ^ 3)
    else .indexError
  else if type = "star-forming" then
    if i < 8 then
      .ok (tomczak_s tomczak_phi1_sf tomczak_x1_sf tomczak_alpha1_sf
        tomczak_phi2_sf tomczak_x1_all tomczak_alpha2_sf i m / littleh ^ 3)
    else .indexError
  else if type = "quiescent" then
    if i < 8 then
      .ok (tomczak_s tomczak_phi1_q tomczak_x1_q tomczak_alpha1_q
        tomczak_phi2_q tomczak_x1_all tomczak_alpha2_q i m / littleh ^ 3)
    else .indexError
  else .printed "type not available"

/-- C8 counterexample: the claim that an unrecognized type raises
`UnsupportedCategoryError` is false — calling with type `'foo'` prints
`'type not available'` and returns `None`; no error is raised. -/
theorem C8_counterexample :
    Tomczak_2014_phi_call 1.0 "foo" 1 = .printed "type not available" ∧
    Tomczak_2014_phi_call 1.0 "foo" 1 ≠ .raised .unsupportedCategory := by
  constructor
  · rw [Tomczak_2014_phi_call]
    simp
  · rw [Tomczak_2014_phi_call]
    simp

/-- C8 (amended): a call with a type string not among
`'all' | 'star-forming' | 'quiescent'` reports the failure synchronously
by printing the diagnostic `'type not available'` and returning `None`;
no partial result is returned (and no error is raised). -/
theorem C8_unrecognized_type_prints (redshift mstar : ℝ) (type : String)
    (h1 : type ≠ "all") (h2 : type ≠ "star-forming") (h3 : type ≠ "quiescent") :
    Tomczak_2014_phi_call redshift type mstar = .printed "type not available" := by
  rw [Tomczak_2014_phi_call]
  simp [h1, h2, h3]

/-- C8 witness: the amended theorem applied at the concrete unrecognized
type `'foo'`. -/
theorem C8_unrecognized_type_prints_witness :
    "foo" ≠ "all" ∧ "foo" ≠ "star-forming" ∧ "foo" ≠ "quiescent" ∧
      Tomczak_2014_phi_call 0.4 "foo" 2 = .printed "type not available" :=
  ⟨by decide, by decide, by decide,
    C8_unrecognized_type_prints 0.4 2 "foo" (by decide) (by decide) (by decide)⟩

/-- C10 counterexample: the claim's example "any z ≥ 2.5" is false at
`z = 2.5` exactly — `searchsorted` returns `7 < 8` there, so the call
indexes bracket 7 successfully instead of failing with an IndexError. -/
theorem C10_counterexample :
    searchsorted tomczak_z_bins 2.5 = 7 ∧
    Tomczak_2014_phi_call 2.5 "all" 1 ≠ .indexError := by
  have hs : searchsorted tomczak_z_bins 2.5 = 7 := by
    rw [searchsorted, tomczak_z_bins]
    norm_num [List.countP_cons, List.countP_nil]
  refine ⟨hs, ?_⟩
  rw [Tomczak_2014_phi_call]
  simp [hs]

/-- C10 (amended): `Tomczak_2014_phi` holds exactly 8 coefficient
brackets per sample but a 10-element boundary array `z_bins` with the
value `2.5` duplicated; for every redshift `z` with
`searchsorted(z_bins, z) ≥ 8` — e.g. any `z > 2.5` — every call with a
recognized type indexes the 8-element model array out of range and
fails with an IndexError rather than an `UnsupportedBinError`. -/
theorem C10_searchsorted_index_error :
    tomczak_z_bins.length = 10 ∧
    tomczak_phi1_all.length = 8 ∧ tomczak_phi1_sf.length = 8 ∧
    tomczak_phi1_q.length = 8 ∧
    tomczak_z_bins.getD 7 0 = 2.5 ∧ tomczak_z_bins.getD 8 0 = 2.5 ∧
    (∀ z : ℝ, 2.5 < z → 8 ≤ searchsorted tomczak_z_bins z) ∧
    (∀ z mstar : ℝ, 8 ≤ searchsorted tomczak_z_bins z →
      Tomczak_2014_phi_call z "all" mstar = .indexError ∧
      Tomczak_2014_phi_call z "star-forming" mstar = .indexError ∧
      Tomczak_2014_phi_call z "quiescent" mstar = .indexError) := by
  refine ⟨rfl, rfl, rfl, rfl, rfl, rfl, ?_, ?_⟩
  · intro z hz
    rw [searchsorted, tomczak_z_bins]
    have h02 : (0.2:ℝ) < z := by linarith
    have h05 : (0.5:ℝ) < z := by linarith
    have h075 : (0.75:ℝ) < z := by linarith
    have h1 : (1.0:ℝ) < z := by linarith
    have h125 : (1.25:ℝ) < z := by linarith
    have h15 : (1.5:ℝ) < z := by linarith
    have h2 : (2.0:ℝ) < z := by linarith
    have h25 : (2.5:ℝ) < z := hz
    by_cases h30 : (3.0:ℝ) < z <;>
      simp [List.countP_cons, List.countP_nil, h02, h05, h075, h1, h125,
        h15, h2, h25, h30]
  · intro z mstar hi
    have hnot : ¬ searchsorted tomczak_z_bins z < 8 := by omega
    refine ⟨?_, ?_, ?_⟩ <;>
      · rw [Tomczak_2014_phi_call]
        simp [hnot]

/-- C10 witness: the amended theorem applied at the concrete redshift
`z = 3.5 > 2.5`, for which `searchsorted` exceeds the bracket count and
all three recognized types fail with an IndexError. -/
theorem C10_searchsorted_index_error_witness :
    (2.5:ℝ) < 3.5 ∧ 8 ≤ searchsorted tomczak_z_bins 3.5 ∧
      Tomczak_2014_phi_call 3.5 "all" 1 = .indexError ∧
      Tomczak_2014_phi_call 3.5 "star-forming" 1 = .indexError ∧
      Tomczak_2014_phi_call 3.5 "quiescent" 1 = .indexError := by
  have h1 : (2.5:ℝ) < 3.5 := by norm_num
  have h2 : 8 ≤ searchsorted tomczak_z_bins 3.5 :=
    C10_searchsorted_index_error.2.2.2.2.2.2.1 3.5 h1
  exact ⟨h1, h2, C10_searchsorted_index_error.2.2.2.2.2.2.2 3.5 1 h2⟩

/-!  ## Hearin et al. 2014 lookup (`hearin_2014_wp.py`)  -/

/-- Embedding of `np.isclose(a, b, atol=0.01)` with numpy's default relative
tolerance `rtol = 1e-05`: `|a - b| <= atol + rtol*|b|`. -/
noncomputable def np_isclose (a b : ℝ) : Prop :=
  |a - b| ≤ 0.01 + 1e-5 * |b|

/-- The three available mass thresholds of `hearin_2014_wp` in the h=1
convention (lines 58-59): `log10([10^9.8, 10^10.2, 10^10.6] * 0.7^2)`. -/
noncomputable def hearin_thresholds : List ℝ :=
  [Real.logb 10 ((10:ℝ) ^ (9.8:ℝ) * (0.7:ℝ) ^ 2),
   Real.logb 10 ((10:ℝ) ^ (10.2:ℝ) * (0.7:ℝ) ^ 2),
   Real.logb 10 ((10:ℝ) ^ (10.6:ℝ) * (0.7:ℝ) ^ 2)]

open Classical in
/-- Embedding of `hearin_2014_wp` (hearin_2014_wp.py lines 18-98).  The data file is
supplied through `fs` (filename to parsed table).  Returns the
`(measurement, sigma)` pair: the measurement is the pair of rows built
from `rp` and the selected `wp` column, then rescaled by the two row-0
assignments of lines 94-95 — the second assignment overwrites row 0
with `littleh` times the (unmodified) second row, and row 1 is never
rescaled. -/
noncomputable def hearin_2014_wp (mstar_thresh : ℝ) (sample : String)
    (fs : String → Table) : PyResult ((List ℝ × List ℝ) × List ℝ) :=
  let littleh : ℝ := 0.7
  if hname : sample = "all" ∨ sample = "red" ∨ sample = "blue" then
    let filename := if sample = "all" then "table_1.dat"
      else if sample = "red" then "table_3.dat" else "table_2.dat"
    let lt := Real.logb 10 mstar_thresh
    let m0 := np_isclose lt (hearin_thresholds.getD 0 0)
    let m1 := np_isclose lt (hearin_thresholds.getD 1 0)
    let m2 := np_isclose lt (hearin_thresholds.getD 2 0)
    if m0 ∨ m1 ∨ m2 then
      let column := if m0 then 1 else if m1 then 3 else 5
      let data := fs filename
      let rp := col data 0
      let wp := col data column
      let sigma := col data (column + 1)
      -- line 94: measurement[0] = measurement[0,:]*littleh
      let row0 := rp.map (fun v => v * littleh)
      -- line 95: measurement[0] = measurement[1,:]*littleh  (overwrites row 0 again)
      let row0 := wp.map (fun v => v * littleh)
      .ok ((row0, wp), sigma.map (fun v => v * littleh))
    else
      .raised .unsupportedBin
  else
    .raised .unsupportedSample

/-- A one-row data file used to exercise `hearin_2014_wp` at a concrete
input: `rp = 1`, the three `(wp, err)` column pairs are
`(2,3), (4,5), (6,7)`. -/
noncomputable def hearinTestFS : String → Table :=
  fun _ => [[1, 2, 3, 4, 5, 6, 7]]

/-- C1: evaluating `hearin_2014_wp` at the exactly-matching first
threshold on the file `[[1, 2, 3, 4, 5, 6, 7]]` returns first row
`[2 * 0.7] = [1.4]` (the wp column rescaled) and second row `[2]` (the
wp column unconverted) — not the claimed `([rp*0.7], [wp*0.7]) =
([0.7], [1.4])`; only the returned `sigma = [2.1]` matches the claim.
The two assignments of lines 94-95 both write row 0, so `rp` is
discarded and `wp` is never converted. -/
theorem C1_hearin_conversion_bug :
    hearin_2014_wp ((10:ℝ) ^ (9.8:ℝ) * (0.7:ℝ) ^ 2) "all" hearinTestFS =
      .ok (([1.4], [2]), [2.1]) ∧
    hearin_2014_wp ((10:ℝ) ^ (9.8:ℝ) * (0.7:ℝ) ^ 2) "all" hearinTestFS ≠
      .ok (([0.7], [1.4]), [2.1]) := by
  have hmatch : np_isclose (Real.logb 10 ((10:ℝ) ^ (9.8:ℝ) * (0.7:ℝ) ^ 2))
      (hearin_thresholds.getD 0 0) := by
    rw [np_isclose, hearin_thresholds]
    simp only [List.getD_cons_zero, sub_self, abs_zero]
    positivity
  have heval : hearin_2014_wp ((10:ℝ) ^ (9.8:ℝ) * (0.7:ℝ) ^ 2) "all" hearinTestFS =
      .ok (([1.4], [2]), [2.1]) := by
    rw [hearin_2014_wp]
    rw [dif_pos (Or.inl rfl)]
    simp only [if_pos (Or.inl hmatch), if_pos hmatch]
    rw [hearinTestFS]
    simp [col]
    norm_num
  refine ⟨heval, ?_⟩
  rw [heval]
  intro hcontra
  have h14 : (1.4:ℝ) = 0.7 := by
    have := congrArg (fun r => match r with
      | PyResult.ok v => v.1.1.getD 0 0
      | _ => (0:ℝ)) hcontra
    simpa using this
  norm_num at h14

/-!  ## Yang et al. 2012 lookup (`yang_2012_wp.py`)  -/

/-- Sequencing of the embedded Python calls: propagate a raised error,
IndexError or printed diagnostic, continue on a normal return. -/
def PyResult.bind {α β : Type} (r : PyResult α) (f : α → PyResult β) : PyResult β :=
  match r with
  | .ok v => f v
  | .raised e => .raised e
  | .indexError => .indexError
  | .printed m => .printed m

/-- Reducing `bind` on a normal return applies the continuation. -/
theorem PyResult.ok_bind {α β : Type} (v : α) (f : α → PyResult β) :
    (PyResult.ok v).bind f = f v := rfl

/-- Reducing `bind` on a raised error propagates it. -/
theorem PyResult.raised_bind {α β : Type} (e : LssError) (f : α → PyResult β) :
    (PyResult.raised e).bind f = .raised e := rfl

/-- Indexing with `getD` into a mapped range picks out `g i`. -/
theorem getD_range_map {α : Type} (g : ℕ → α) (k i : ℕ) (d : α) (h : i < k) :
    ((List.range k).map g).getD i d = g i := by
  rw [List.getD_eq_getElem?_getD, List.getElem?_map, List.getElem?_range h]
  rfl

/-- Rows 1-14 of a Yang data file: the `wp` block selected by
`ascii.read(..., data_start=1, data_end=15)` (yang_2012_wp.py line 80). -/
def yang_wp_rows (file : Table) : Table := (file.drop 1).take 14

/-- Rows 15-28 of a Yang data file: the correlation block selected by
`ascii.read(..., data_start=15, data_end=29)` (line 81). -/
def yang_corr_rows (file : Table) : Table := (file.drop 15).take 14

/-- The `rp` column (line 83). -/
def yang_rp (file : Table) : List ℝ := col (yang_wp_rows file) 0

/-- The `wp` column (line 84). -/
def yang_wp (file : Table) : List ℝ := col (yang_wp_rows file) 1

/-- The dimensionless correlation grid as the source parses it
(line 90): `np.array([cov_data[c] for c in cov_data.columns])`, i.e.
the list of the file block's columns. -/
def yang_corr (file : Table) : Table :=
  (List.range ((yang_corr_rows file).headD []).length).map
    (fun c => col (yang_corr_rows file) c)

open Classical in
/-- The covariance matrix built in place by the double loop of
lines 92-95: entry `(i,j)` with `i, j < N = len(wp)` becomes
`wp[i]*wp[j]*corr[i,j]`; entries outside that square (none exist for a
well-formed 14x14 file) keep the parsed value. -/
noncomputable def yang_cov (file : Table) : Table :=
  let wp := yang_wp file
  let corr := yang_corr file
  let n := wp.length
  (List.range corr.length).map (fun i =>
    (List.range ((corr.getD i []).length)).map (fun j =>
      if i < n ∧ j < n then
        wp.getD i 0 * wp.getD j 0 * (corr.getD i []).getD j 0
      else (corr.getD i []).getD j 0))

open Classical in
/-- Stage 2 of `yang_2012_wp` (lines 62-75): map the requested log-mass
bin to one of the five files of the sample's group. -/
noncomputable def yang_filename (mb : ℝ × ℝ) (filenames : List String) : PyResult String :=
  if mb = ((9.0:ℝ), (9.5:ℝ)) then .ok (filenames.getD 0 "")
  else if mb = ((9.5:ℝ), (10.0:ℝ)) then .ok (filenames.getD 1 "")
  else if mb = ((10.0:ℝ), (10.5:ℝ)) then .ok (filenames.getD 2 "")
  else if mb = ((10.5:ℝ), (11.0:ℝ)) then .ok (filenames.getD 3 "")
  else if mb = ((11.0:ℝ), (11.5:ℝ)) then .ok (filenames.getD 4 "")
  else .raised .unsupportedBin

open Classical in
/-- Embedding of `yang_2012_wp` (yang_2012_wp.py lines 18-98): stage-1 sample
dispatch, stage-2 bin dispatch, then read the resolved file (supplied
through `fs`) and return the measurement grid and covariance matrix. -/
noncomputable def yang_2012_wp (min_mstar max_mstar : ℝ) (sample : String)
    (fs : String → Table) : PyResult ((List ℝ × List ℝ) × Table) :=
  if sample = "Volume1" ∨ sample = "Volume2" ∨ sample = "Mass-limit" then
    let filenames :=
      if sample = "Volume1" then
        ["xi01.dat", "xi02.dat", "xi03.dat", "xi04.dat", "xi05.dat"]
      else if sample = "Volume2" then
        ["xi06.dat", "xi07.dat", "xi08.dat", "xi09.dat", "xi10.dat"]
      else ["xi11.dat", "xi12.dat", "xi13.dat", "xi14.dat", "xi15.dat"]
    let mb := (Real.logb 10 min_mstar, Real.logb 10 max_mstar)
    (yang_filename mb filenames).bind (fun fname =>
      let file := fs fname
      .ok ((yang_rp file, yang_wp file), yang_cov file))
  else .raised .unsupportedSample

/-- C3: requesting sample `'Volume1'` with mass bin
`(10^9.0, 10^9.5)` reads `xi01.dat` and returns a 2x14 measurement grid
and a 14x14 covariance matrix with
`cov[i,j] = corr[i,j] * wp[i] * wp[j]` for all `i, j < 14` (in
particular `cov[0,0] = wp[0]^2 * corr[0,0]`), provided the file has the
published shape (at least 29 rows, correlation rows of width 14). -/
theorem C3_yang_covariance (fs : String → Table)
    (hlen : 29 ≤ (fs "xi01.dat").length)
    (hwidth : (((fs "xi01.dat").drop 15).headD []).length = 14) :
    yang_2012_wp ((10:ℝ) ^ ((9.0:ℝ))) ((10:ℝ) ^ ((9.5:ℝ))) "Volume1" fs =
      .ok ((yang_rp (fs "xi01.dat"), yang_wp (fs "xi01.dat")),
           yang_cov (fs "xi01.dat")) ∧
    (yang_rp (fs "xi01.dat")).length = 14 ∧
    (yang_wp (fs "xi01.dat")).length = 14 ∧
    (yang_cov (fs "xi01.dat")).length = 14 ∧
    (∀ i, i < 14 → ((yang_cov (fs "xi01.dat")).getD i []).length = 14) ∧
    (∀ i j, i < 14 → j < 14 →
      ((yang_cov (fs "xi01.dat")).getD i []).getD j 0 =
        ((yang_corr (fs "xi01.dat")).getD i []).getD j 0 *
          (yang_wp (fs "xi01.dat")).getD i 0 *
          (yang_wp (fs "xi01.dat")).getD j 0) ∧
    ((yang_cov (fs "xi01.dat")).getD 0 []).getD 0 0 =
      ((yang_wp (fs "xi01.dat")).getD 0 0) ^ 2 *
        ((yang_corr (fs "xi01.dat")).getD 0 []).getD 0 0 := by
  set file := fs "xi01.dat" with hfile
  have hwplen : (yang_wp file).length = 14 := by
    rw [yang_wp, col, List.length_map, yang_wp_rows, List.length_take,
      List.length_drop]
    omega
  have hrplen : (yang_rp file).length = 14 := by
    rw [yang_rp, col, List.length_map, yang_wp_rows, List.length_take,
      List.length_drop]
    omega
  have hcorrrowslen : (yang_corr_rows file).length = 14 := by
    rw [yang_corr_rows, List.length_take, List.length_drop]
    omega
  have hhead : (yang_corr_rows file).headD [] = (file.drop 15).headD [] := by
    rw [yang_corr_rows]
    rcases file.drop 15 with _ | ⟨a, l⟩
    · rfl
    · rfl
  have hcorrlen : (yang_corr file).length = 14 := by
    rw [yang_corr, List.length_map, List.length_range, hhead, hwidth]
  have hcorrrow : ∀ i, i < 14 → ((yang_corr file).getD i []).length = 14 := by
    intro i hi
    rw [yang_corr, getD_range_map _ _ _ _ (by rw [hhead, hwidth]; exact hi),
      col, List.length_map, hcorrrowslen]
  have hcovlen : (yang_cov file).length = 14 := by
    rw [yang_cov, List.length_map, List.length_range, hcorrlen]
  have hcovrow : ∀ i, i < 14 → ((yang_cov file).getD i []).length = 14 := by
    intro i hi
    rw [yang_cov, getD_range_map _ _ _ _ (by rw [hcorrlen]; exact hi),
      List.length_map, List.length_range, hcorrrow i hi]
  have hcovij : ∀ i j, i < 14 → j < 14 →
      ((yang_cov file).getD i []).getD j 0 =
        ((yang_corr file).getD i []).getD j 0 *
          (yang_wp file).getD i 0 * (yang_wp file).getD j 0 := by
    intro i j hi hj
    rw [yang_cov, getD_range_map _ _ _ _ (by rw [hcorrlen]; exact hi),
      getD_range_map _ _ _ _ (by rw [hcorrrow i hi]; exact hj),
      if_pos ⟨by rw [hwplen]; exact hi, by rw [hwplen]; exact hj⟩]
    ring
  have hdispatch :
      yang_2012_wp ((10:ℝ) ^ ((9.0:ℝ))) ((10:ℝ) ^ ((9.5:ℝ))) "Volume1" fs =
        .ok ((yang_rp file, yang_wp file), yang_cov file) := by
    rw [yang_2012_wp, if_pos (Or.inl rfl)]
    simp only [logb_ten_rpow]
    rw [yang_filename, if_pos rfl]
    rfl
  refine ⟨hdispatch, hrplen, hwplen, hcovlen, hcovrow, hcovij, ?_⟩
  rw [hcovij 0 0 (by norm_num) (by norm_num)]
  ring

/-- A well-formed stand-in Yang data file: 29 rows of 14 entries. -/
noncomputable def yangTestFS : String → Table :=
  fun _ => List.replicate 29 (List.replicate 14 (1:ℝ))

/-- C3 witness: the theorem applied to the concrete 29x14 file, whose
shape hypotheses hold by computation. -/
theorem C3_yang_covariance_witness :
    29 ≤ (yangTestFS "xi01.dat").length ∧
    (((yangTestFS "xi01.dat").drop 15).headD []).length = 14 ∧
    yang_2012_wp ((10:ℝ) ^ ((9.0:ℝ))) ((10:ℝ) ^ ((9.5:ℝ))) "Volume1" yangTestFS =
      .ok ((yang_rp (yangTestFS "xi01.dat"), yang_wp (yangTestFS "xi01.dat")),
           yang_cov (yangTestFS "xi01.dat")) := by
  have h1 : 29 ≤ (yangTestFS "xi01.dat").length := by
    rw [yangTestFS]
    simp
  have h2 : (((yangTestFS "xi01.dat").drop 15).headD []).length = 14 := by
    rw [yangTestFS]
    simp [List.drop_replicate]
  exact ⟨h1, h2, (C3_yang_covariance yangTestFS h1 h2).1⟩

/-!  ## Zehavi et al. 2011 lookup (`zehavi_2011_wp.py`)  -/

/-- The covariance file group of `table7/` (binned `'all'`, lines 68-73). -/
def zehavi_table7_covs : List String :=
  ["wp_covar_23.0_22.0.dat", "wp_covar_22.0_21.0.dat", "wp_covar_21.0_20.0.dat",
   "wp_covar_20.0_19.0.dat", "wp_covar_19.0_18.0.dat", "wp_covar_18.0_17.0.dat"]

/-- The covariance file group of `table8/` (threshold `'all'`, lines 77-85). -/
def zehavi_table8_covs : List String :=
  ["wp_covar_22.0.dat", "wp_covar_21.5.dat", "wp_covar_21.0.dat",
   "wp_covar_20.5.dat", "wp_covar_20.0.dat", "wp_covar_19.5.dat",
   "wp_covar_19.0.dat", "wp_covar_18.5.dat", "wp_covar_18.0.dat"]

/-- The covariance file group of `table9/` (binned `'blue'`, lines 89-94). -/
def zehavi_table9_covs : List String :=
  ["wp_covar_23.0_22.0_mblue.dat", "wp_covar_22.0_21.0_mblue.dat",
   "wp_covar_21.0_20.0_mblue.dat", "wp_covar_20.0_19.0_mblue.dat",
   "wp_covar_19.0_18.0_mblue.dat", "wp_covar_18.0_17.0_mblue.dat"]

/-- The covariance file group of `table10/` (binned `'red'`, lines 98-103). -/
def zehavi_table10_covs : List String :=
  ["wp_covar_23.0_22.0_mred.dat", "wp_covar_22.0_21.0_mred.dat",
   "wp_covar_21.0_20.0_mred.dat", "wp_covar_20.0_19.0_mred.dat",
   "wp_covar_19.0_18.0_mred.dat", "wp_covar_18.0_17.0_mred.dat"]

open Classical in
/-- Stage 1 of `zehavi_2011_wp` (lines 54-107): narrow the file group
(directory, covariance family, wp table) from the sample string and the
threshold flag.  The source sets `threshold=True` inside the
`Mr_min == None` branch, but line 63 (`threshold=False`) sits at
function level and runs unconditionally after the if/else, so the flag
the dispatch sees is always `False`; both assignments are transcribed
here, the second shadowing the first. -/
noncomputable def zehavi_stage1 (Mr_min : Option ℝ) (sample : String) :
    PyResult (String × List String × String) :=
  let threshold := (Mr_min = none)
  let threshold := False
  if sample = "all" ∧ ¬ threshold then
    .ok ("table7/", zehavi_table7_covs, "table7.dat")
  else if sample = "all" ∧ threshold then
    .ok ("table8/", zehavi_table8_covs, "table8.dat")
  else if sample = "blue" ∧ ¬ threshold then
    .ok ("table9/", zehavi_table9_covs, "table9.dat")
  else if sample = "red" ∧ ¬ threshold then
    .ok ("table10/", zehavi_table10_covs, "table10.dat")
  else .raised .unsupportedSample

/-- The fifteen magnitude bins enumerated by stage 2 of
`zehavi_2011_wp` (lines 109-153): six binned samples followed by nine
threshold samples (`Mbin = (None, Mr_max)`). -/
noncomputable def zehavi_bins : List (Option ℝ × ℝ) :=
  [(some (-23.0), -22.0), (some (-22.0), -21.0), (some (-21.0), -20.0),
   (some (-20.0), -19.0), (some (-19.0), -18.0), (some (-18.0), -17.0),
   (none, -22.0), (none, -21.5), (none, -21.0), (none, -20.5), (none, -20.0),
   (none, -19.5), (none, -19.0), (none, -18.5), (none, -18.0)]

open Classical in
/-- Stage 2 of `zehavi_2011_wp` (lines 109-156): map the magnitude bin
to a covariance filename (an index into the stage-1 group) and a column
of the wp table. -/
noncomputable def zehavi_stage2 (Mbin : Option ℝ × ℝ) (cov_filenames : List String) :
    PyResult (String × ℕ) :=
  if Mbin = (some (-23.0), -22.0) then .ok (cov_filenames.getD 0 "", 1)
  else if Mbin = (some (-22.0), -21.0) then .ok (cov_filenames.getD 1 "", 3)
  else if Mbin = (some (-21.0), -20.0) then .ok (cov_filenames.getD 2 "", 5)
  else if Mbin = (some (-20.0), -19.0) then .ok (cov_filenames.getD 3 "", 7)
  else if Mbin = (some (-19.0), -18.0) then .ok (cov_filenames.getD 4 "", 9)
  else if Mbin = (some (-18.0), -17.0) then .ok (cov_filenames.getD 5 "", 11)
  else if Mbin = (none, -22.0) then .ok (cov_filenames.getD 0 "", 1)
  else if Mbin = (none, -21.5) then .ok (cov_filenames.getD 1 "", 3)
  else if Mbin = (none, -21.0) then .ok (cov_filenames.getD 2 "", 5)
  else if Mbin = (none, -20.5) then .ok (cov_filenames.getD 3 "", 7)
  else if Mbin = (none, -20.0) then .ok (cov_filenames.getD 4 "", 9)
  else if Mbin = (none, -19.5) then .ok (cov_filenames.getD 5 "", 11)
  else if Mbin = (none, -19.0) then .ok (cov_filenames.getD 6 "", 13)
  else if Mbin = (none, -18.5) then .ok (cov_filenames.getD 7 "", 15)
  else if Mbin = (none, -18.0) then .ok (cov_filenames.getD 8 "", 17)
  else .raised .unsupportedBin

open Classical in
/-- Embedding of `zehavi_2011_wp` (lines 21-178).  `fsTable` supplies the parsed wp
table for a path, `fsFlat` the whitespace-split covariance file.  After
the two dispatch stages, the measurement is `(rp, wp-column)` and the
covariance matrix is filled row-major from the flat token list. -/
noncomputable def zehavi_2011_wp (Mr_min : Option ℝ) (Mr_max : ℝ) (sample : String)
    (fsTable : String → Table) (fsFlat : String → List ℝ) :
    PyResult ((List ℝ × List ℝ) × Table) :=
  let Mbin : Option ℝ × ℝ := (Mr_min, Mr_max)
  (zehavi_stage1 Mr_min sample).bind (fun g =>
    (zehavi_stage2 Mbin g.2.1).bind (fun c =>
      let wp_data := fsTable (g.1 ++ g.2.2)
      let rp := col wp_data 0
      let wp := col wp_data c.2
      let cov_data := fsFlat (g.1 ++ c.1)
      let n := wp_data.length
      let cov := (List.range n).map (fun i =>
        (List.range n).map (fun j => cov_data.getD (i * n + j) 0))
      .ok ((rp, wp), cov)))

/-- C2: the claim that `Mr_min = None` with `sample = 'all'` resolves
stage 1 to the `table8/` threshold group is false on the code: because
line 63 resets `threshold` to `False` unconditionally, stage 1 resolves
to the binned `table7/` group (`table7.dat` and the six binned
covariance files), not to `table8/`. -/
theorem C2_zehavi_threshold_dispatch :
    zehavi_stage1 none "all" = .ok ("table7/", zehavi_table7_covs, "table7.dat") ∧
    zehavi_stage1 none "all" ≠ .ok ("table8/", zehavi_table8_covs, "table8.dat") := by
  have h : zehavi_stage1 none "all" =
      .ok ("table7/", zehavi_table7_covs, "table7.dat") := by
    rw [zehavi_stage1, if_pos ⟨rfl, not_false⟩]
  refine ⟨h, ?_⟩
  rw [h]
  intro hcontra
  have h78 : "table7/" = "table8/" := by
    have hfst := congrArg (fun r => match r with
      | PyResult.ok v => v.1
      | _ => "") hcontra
    simp only at hfst
    exact hfst
  simp at h78

/-!  ## Campbell et al. 2016 lookup (`campbell_2016_wp.py`)  -/

/-- The twelve data files of the `'nearest_neighbor'` method
(campbell_2016_wp.py lines 51-62). -/
def campbell_nn_files : List String :=
  ["wp_data_nearest_neighbor_all_11.0_11.5_0.npy",
   "wp_data_nearest_neighbor_all_10.0_10.5_0.npy",
   "wp_data_nearest_neighbor_all_10.5_11.0_0.npy",
   "wp_data_nearest_neighbor_all_9.5_10.0_0.npy",
   "wp_data_nearest_neighbor_blue_11.0_11.5_0.npy",
   "wp_data_nearest_neighbor_blue_10.0_10.5_0.npy",
   "wp_data_nearest_neighbor_blue_10.5_11.0_0.npy",
   "wp_data_nearest_neighbor_blue_9.5_10.0_0.npy",
   "wp_data_nearest_neighbor_red_11.0_11.5_0.npy",
   "wp_data_nearest_neighbor_red_10.0_10.5_0.npy",
   "wp_data_nearest_neighbor_red_10.5_11.0_0.npy",
   "wp_data_nearest_neighbor_red_9.5_10.0_0.npy"]

/-- The twelve data files of the `'theta_weights'` method
(lines 64-75). -/
def campbell_tw_files : List String :=
  ["wp_data_no_collisions_all_11.0_11.5_0.npy",
   "wp_data_no_collisions_all_10.0_10.5_0.npy",
   "wp_data_no_collisions_all_10.5_11.0_0.npy",
   "wp_data_no_collisions_all_9.5_10.0_0.npy",
   "wp_data_no_collisions_blue_11.0_11.5_0.npy",
   "wp_data_no_collisions_blue_10.0_10.5_0.npy",
   "wp_data_no_collisions_blue_10.5_11.0_0.npy",
   "wp_data_no_collisions_blue_9.5_10.0_0.npy",
   "wp_data_no_collisions_red_11.0_11.5_0.npy",
   "wp_data_no_collisions_red_10.0_10.5_0.npy",
   "wp_data_no_collisions_red_10.5_11.0_0.npy",
   "wp_data_no_collisions_red_9.5_10.0_0.npy"]

/-- Method dispatch of `campbell_2016_wp` (lines 50-78). -/
def campbell_method_files (method : String) : PyResult (List String) :=
  if method = "nearest_neighbor" then .ok campbell_nn_files
  else if method = "theta_weights" then .ok campbell_tw_files
  else .raised .unsupportedMethod

/-- Sample slicing of `campbell_2016_wp` (lines 80-88):
`filenames[:4]`, `filenames[4:8]` or `filenames[8:]`. -/
def campbell_sample_files (sample : String) (filenames : List String) :
    PyResult (List String) :=
  if sample = "all" then .ok (filenames.take 4)
  else if sample = "blue" then .ok ((filenames.drop 4).take 4)
  else if sample = "red" then .ok (filenames.drop 8)
  else .raised .unsupportedSample

open Classical in
/-- Stage 2 of `campbell_2016_wp` (lines 94-105): map the log-mass bin
to an index into the four files kept for the method/sample pair. -/
noncomputable def campbell_pick (mass_bin : ℝ × ℝ) (filenames : List String) :
    PyResult String :=
  if mass_bin = ((9.5:ℝ), (10.0:ℝ)) then .ok (filenames.getD 3 "")
  else if mass_bin = ((10.0:ℝ), (10.5:ℝ)) then .ok (filenames.getD 2 "")
  else if mass_bin = ((10.5:ℝ), (11.0:ℝ)) then .ok (filenames.getD 1 "")
  else if mass_bin = ((11.0:ℝ), (11.5:ℝ)) then .ok (filenames.getD 0 "")
  else .raised .unsupportedBin

/-- The filename resolved by `campbell_2016_wp` before any file read
(lines 49-105). -/
noncomputable def campbell_filename (method sample : String) (min_mstar max_mstar : ℝ) :
    PyResult String :=
  (campbell_method_files method).bind (fun fns =>
    (campbell_sample_files sample fns).bind (fun fns =>
      campbell_pick (Real.logb 10 min_mstar, Real.logb 10 max_mstar) fns))

/-- Embedding of `campbell_2016_wp` (lines 18-118): resolve the filename, then read
the 2-row array (supplied through `fs`) and return `(rp, wp)`. -/
noncomputable def campbell_2016_wp (min_mstar max_mstar : ℝ) (method sample : String)
    (fs : String → Table) : PyResult (List ℝ × List ℝ) :=
  (campbell_filename method sample min_mstar max_mstar).bind (fun fname =>
    let wp_data := fs fname
    .ok (wp_data.getD 0 [], wp_data.getD 1 []))

/-- The data-file name the Campbell file lists associate with a given
method, sample and mass-interval label. -/
def campbell_named_file (method sample bin_label : String) : String :=
  "wp_data_" ++ (if method = "nearest_neighbor" then "nearest_neighbor"
    else "no_collisions") ++ "_" ++ sample ++ "_" ++ bin_label ++ "_0.npy"

/-- C9: for every supported method and sample, the stage-2 dispatch of
`campbell_2016_wp` sends mass bin `(10^10.0, 10^10.5)` to
`filenames[2]`, the file whose name encodes the interval `10.5_11.0`,
and mass bin `(10^10.5, 10^11.0)` to `filenames[1]`, the file whose
name encodes `10.0_10.5` — the two adjacent bins resolve to files
carrying each other's labels — while bins `(9.5, 10.0)` and
`(11.0, 11.5)` resolve to the files carrying their own labels. -/
theorem C9_campbell_swapped_bins (method sample : String)
    (hm : method = "nearest_neighbor" ∨ method = "theta_weights")
    (hs : sample = "all" ∨ sample = "blue" ∨ sample = "red") :
    campbell_filename method sample ((10:ℝ) ^ ((10.0:ℝ))) ((10:ℝ) ^ ((10.5:ℝ))) =
      .ok (campbell_named_file method sample "10.5_11.0") ∧
    campbell_filename method sample ((10:ℝ) ^ ((10.5:ℝ))) ((10:ℝ) ^ ((11.0:ℝ))) =
      .ok (campbell_named_file method sample "10.0_10.5") ∧
    campbell_filename method sample ((10:ℝ) ^ ((9.5:ℝ))) ((10:ℝ) ^ ((10.0:ℝ))) =
      .ok (campbell_named_file method sample "9.5_10.0") ∧
    campbell_filename method sample ((10:ℝ) ^ ((11.0:ℝ))) ((10:ℝ) ^ ((11.5:ℝ))) =
      .ok (campbell_named_file method sample "11.0_11.5") := by
  rcases hm with hm | hm <;> rcases hs with hs | hs | hs <;>
    subst hm <;> subst hs <;>
    refine ⟨?_, ?_, ?_, ?_⟩ <;>
      · rw [campbell_filename, campbell_method_files]
        simp only [logb_ten_rpow, reduceIte, PyResult.bind, campbell_sample_files,
          campbell_pick, campbell_named_file]
        norm_num
        rfl

/-- C9 witness: the theorem applied at the concrete pair
`('theta_weights', 'all')`. -/
theorem C9_campbell_swapped_bins_witness :
    ("theta_weights" = "nearest_neighbor" ∨ "theta_weights" = "theta_weights") ∧
    ("all" = "all" ∨ "all" = "blue" ∨ "all" = "red") ∧
    campbell_filename "theta_weights" "all" ((10:ℝ) ^ ((10.0:ℝ))) ((10:ℝ) ^ ((10.5:ℝ))) =
      .ok "wp_data_no_collisions_all_10.5_11.0_0.npy" ∧
    campbell_filename "theta_weights" "all" ((10:ℝ) ^ ((10.5:ℝ))) ((10:ℝ) ^ ((11.0:ℝ))) =
      .ok "wp_data_no_collisions_all_10.0_10.5_0.npy" := by
  have h := C9_campbell_swapped_bins "theta_weights" "all" (Or.inr rfl) (Or.inl rfl)
  exact ⟨Or.inr rfl, Or.inl rfl, h.1, h.2.1⟩

/-!  ## C7: unsupported bins raise before any file is read  -/

/-- The five mass bins enumerated by `yang_2012_wp` (log10 bin edges). -/
noncomputable def yang_mass_bins : List (ℝ × ℝ) :=
  [((9.0:ℝ), (9.5:ℝ)), ((9.5:ℝ), (10.0:ℝ)), ((10.0:ℝ), (10.5:ℝ)),
   ((10.5:ℝ), (11.0:ℝ)), ((11.0:ℝ), (11.5:ℝ))]

/-- The four mass bins enumerated by `campbell_2016_wp` (log10 bin edges). -/
noncomputable def campbell_mass_bins : List (ℝ × ℝ) :=
  [((9.5:ℝ), (10.0:ℝ)), ((10.0:ℝ), (10.5:ℝ)), ((10.5:ℝ), (11.0:ℝ)),
   ((11.0:ℝ), (11.5:ℝ))]

/-- Every enumerated Hearin threshold `log10(10^c * 0.7^2)` with
`c ∈ {9.8, 10.2, 10.6}` lies between `8.8` and `10.6`. -/
theorem hearin_threshold_bounds :
    ∀ t ∈ hearin_thresholds, (8.8:ℝ) ≤ t ∧ t ≤ 10.6 := by
  have h49a : (-1:ℝ) ≤ Real.logb 10 ((0.7:ℝ) ^ 2) := by
    rw [Real.le_logb_iff_rpow_le (by norm_num) (by norm_num)]
    rw [show ((-1:ℝ) = ((-1:ℤ) : ℝ)) by norm_num, Real.rpow_intCast]
    norm_num
  have h49b : Real.logb 10 ((0.7:ℝ) ^ 2) ≤ 0 :=
    Real.logb_nonpos (by norm_num) (by norm_num) (by norm_num)
  have key : ∀ c : ℝ, Real.logb 10 ((10:ℝ) ^ c * (0.7:ℝ) ^ 2) =
      c + Real.logb 10 ((0.7:ℝ) ^ 2) := by
    intro c
    rw [Real.logb_mul (by positivity) (by norm_num), logb_ten_rpow]
  intro t ht
  rw [hearin_thresholds] at ht
  simp only [List.mem_cons, List.not_mem_nil, or_false] at ht
  rcases ht with ht | ht | ht <;> rw [ht, key] <;> constructor <;> linarith

/-- C7: for each of the four lookup functions, a call whose
mass/magnitude bin or threshold matches none of the enumerated bins
raises `UnsupportedBinError`, and does so before any data file is
opened: the file-content oracles `fs` are universally quantified and
the raised outcome is the same constant for every possible file
content, so no file is consulted. -/
theorem C7_unsupported_bin_raises_before_read :
    (∀ (min_mstar max_mstar : ℝ) (sample : String) (fs : String → Table),
      (sample = "Volume1" ∨ sample = "Volume2" ∨ sample = "Mass-limit") →
      (Real.logb 10 min_mstar, Real.logb 10 max_mstar) ∉ yang_mass_bins →
      yang_2012_wp min_mstar max_mstar sample fs = .raised .unsupportedBin) ∧
    (∀ (Mr_min : Option ℝ) (Mr_max : ℝ) (sample : String)
        (fsTable : String → Table) (fsFlat : String → List ℝ),
      (sample = "all" ∨ sample = "blue" ∨ sample = "red") →
      (Mr_min, Mr_max) ∉ zehavi_bins →
      zehavi_2011_wp Mr_min Mr_max sample fsTable fsFlat = .raised .unsupportedBin) ∧
    (∀ (min_mstar max_mstar : ℝ) (method sample : String) (fs : String → Table),
      (method = "nearest_neighbor" ∨ method = "theta_weights") →
      (sample = "all" ∨ sample = "blue" ∨ sample = "red") →
      (Real.logb 10 min_mstar, Real.logb 10 max_mstar) ∉ campbell_mass_bins →
      campbell_2016_wp min_mstar max_mstar method sample fs = .raised .unsupportedBin) ∧
    (∀ (mstar_thresh : ℝ) (sample : String) (fs : String → Table),
      (sample = "all" ∨ sample = "red" ∨ sample = "blue") →
      (∀ t ∈ hearin_thresholds, ¬ np_isclose (Real.logb 10 mstar_thresh) t) →
      hearin_2014_wp mstar_thresh sample fs = .raised .unsupportedBin) := by
  refine ⟨?_, ?_, ?_, ?_⟩
  · intro m1 m2 sample fs hsample hbin
    simp only [yang_mass_bins, List.mem_cons, List.not_mem_nil, or_false,
      not_or] at hbin
    obtain ⟨h1, h2, h3, h4, h5⟩ := hbin
    have hfn : ∀ fns : List String,
        (yang_filename (Real.logb 10 m1, Real.logb 10 m2) fns).bind
          (fun fname => PyResult.ok ((yang_rp (fs fname), yang_wp (fs fname)),
            yang_cov (fs fname))) = PyResult.raised .unsupportedBin := by
      intro fns
      rw [yang_filename, if_neg h1, if_neg h2, if_neg h3, if_neg h4, if_neg h5,
        PyResult.raised_bind]
    rw [yang_2012_wp, if_pos hsample]
    exact hfn _
  · intro Mr_min Mr_max sample fsT fsF hsample hbin
    simp only [zehavi_bins, List.mem_cons, List.not_mem_nil, or_false,
      not_or] at hbin
    obtain ⟨h1, h2, h3, h4, h5, h6, h7, h8, h9, h10, h11, h12, h13, h14, h15⟩ := hbin
    have hstage1 : ∃ g, zehavi_stage1 Mr_min sample = .ok g := by
      rcases hsample with hs | hs | hs <;> subst hs
      · exact ⟨("table7/", zehavi_table7_covs, "table7.dat"),
          by rw [zehavi_stage1, if_pos ⟨rfl, not_false⟩]⟩
      · exact ⟨("table9/", zehavi_table9_covs, "table9.dat"),
          by rw [zehavi_stage1, if_neg (by simp), if_neg (by simp),
            if_pos ⟨rfl, not_false⟩]⟩
      · exact ⟨("table10/", zehavi_table10_covs, "table10.dat"),
          by rw [zehavi_stage1, if_neg (by simp), if_neg (by simp),
            if_neg (by simp), if_pos ⟨rfl, not_false⟩]⟩
    obtain ⟨g, hg⟩ := hstage1
    rw [zehavi_2011_wp, hg]
    show (zehavi_stage2 (Mr_min, Mr_max) g.2.1).bind _ = _
    rw [zehavi_stage2, if_neg h1, if_neg h2, if_neg h3, if_neg h4, if_neg h5,
      if_neg h6, if_neg h7, if_neg h8, if_neg h9, if_neg h10, if_neg h11,
      if_neg h12, if_neg h13, if_neg h14, if_neg h15]
    rfl
  · intro m1 m2 method sample fs hmethod hsample hbin
    simp only [campbell_mass_bins, List.mem_cons, List.not_mem_nil, or_false,
      not_or] at hbin
    obtain ⟨h1, h2, h3, h4⟩ := hbin
    have hfiles : ∃ fns, campbell_method_files method = .ok fns := by
      rcases hmethod with hm | hm <;> subst hm
      · exact ⟨_, by rw [campbell_method_files, if_pos rfl]⟩
      · exact ⟨_, by rw [campbell_method_files, if_neg (by simp), if_pos rfl]⟩
    obtain ⟨fns, hfns⟩ := hfiles
    have hsliced : ∃ fns2, campbell_sample_files sample fns = .ok fns2 := by
      rcases hsample with hs | hs | hs <;> subst hs
      · exact ⟨_, by rw [campbell_sample_files, if_pos rfl]⟩
      · exact ⟨_, by rw [campbell_sample_files, if_neg (by simp), if_pos rfl]⟩
      · exact ⟨_, by
          rw [campbell_sample_files, if_neg (by simp), if_neg (by simp),
            if_pos rfl]⟩
    obtain ⟨fns2, hfns2⟩ := hsliced
    rw [campbell_2016_wp, campbell_filename, hfns]
    simp only [PyResult.ok_bind]
    rw [hfns2]
    simp only [PyResult.ok_bind]
    rw [campbell_pick, if_neg h1, if_neg h2, if_neg h3, if_neg h4,
      PyResult.raised_bind]
  · intro thresh sample fs hsample hbin
    have hm0 : ¬ np_isclose (Real.logb 10 thresh) (hearin_thresholds.getD 0 0) :=
      hbin _ (by rw [hearin_thresholds]; simp)
    have hm1 : ¬ np_isclose (Real.logb 10 thresh) (hearin_thresholds.getD 1 0) :=
      hbin _ (by rw [hearin_thresholds]; simp)
    have hm2 : ¬ np_isclose (Real.logb 10 thresh) (hearin_thresholds.getD 2 0) :=
      hbin _ (by rw [hearin_thresholds]; simp)
    rw [hearin_2014_wp, dif_pos hsample,
      if_neg (by
        intro hc
        rcases hc with hc | hc | hc
        exacts [hm0 hc, hm1 hc, hm2 hc])]

/-- C7 witness: concrete unsupported-bin calls for all four lookups —
the mass bin `(10^8.0, 10^8.5)` for Yang and Campbell, the magnitude
bin `(-10, -9)` for Zehavi, and the threshold `10^8` for Hearin — each
raising `UnsupportedBinError` for an arbitrary fixed file oracle. -/
theorem C7_unsupported_bin_raises_before_read_witness :
    (("Volume1" = "Volume1" ∨ "Volume1" = "Volume2" ∨ "Volume1" = "Mass-limit") ∧
      (Real.logb 10 ((10:ℝ) ^ ((8.0:ℝ))), Real.logb 10 ((10:ℝ) ^ ((8.5:ℝ)))) ∉
        yang_mass_bins ∧
      yang_2012_wp ((10:ℝ) ^ ((8.0:ℝ))) ((10:ℝ) ^ ((8.5:ℝ))) "Volume1"
        (fun _ => []) = .raised .unsupportedBin) ∧
    (("all" = "all" ∨ "all" = "blue" ∨ "all" = "red") ∧
      ((some (-10.0), (-9.0:ℝ)) : Option ℝ × ℝ) ∉ zehavi_bins ∧
      zehavi_2011_wp (some (-10.0)) (-9.0) "all" (fun _ => []) (fun _ => []) =
        .raised .unsupportedBin) ∧
    (("theta_weights" = "nearest_neighbor" ∨ "theta_weights" = "theta_weights") ∧
      ("all" = "all" ∨ "all" = "blue" ∨ "all" = "red") ∧
      (Real.logb 10 ((10:ℝ) ^ ((8.0:ℝ))), Real.logb 10 ((10:ℝ) ^ ((8.5:ℝ)))) ∉
        campbell_mass_bins ∧
      campbell_2016_wp ((10:ℝ) ^ ((8.0:ℝ))) ((10:ℝ) ^ ((8.5:ℝ))) "theta_weights"
        "all" (fun _ => []) = .raised .unsupportedBin) ∧
    (("all" = "all" ∨ "all" = "red" ∨ "all" = "blue") ∧
      (∀ t ∈ hearin_thresholds,
        ¬ np_isclose (Real.logb 10 ((10:ℝ) ^ ((8.0:ℝ)))) t) ∧
      hearin_2014_wp ((10:ℝ) ^ ((8.0:ℝ))) "all" (fun _ => []) =
        .raised .unsupportedBin) := by
  have hyangbin : (Real.logb 10 ((10:ℝ) ^ ((8.0:ℝ))),
      Real.logb 10 ((10:ℝ) ^ ((8.5:ℝ)))) ∉ yang_mass_bins := by
    simp only [logb_ten_rpow, yang_mass_bins, List.mem_cons, List.not_mem_nil,
      or_false, not_or, Prod.mk.injEq, not_and]
    norm_num
  have hzehbin : ((some (-10.0), (-9.0:ℝ)) : Option ℝ × ℝ) ∉ zehavi_bins := by
    simp only [zehavi_bins, List.mem_cons, List.not_mem_nil, or_false, not_or,
      Prod.mk.injEq, not_and]
    norm_num
  have hcampbin : (Real.logb 10 ((10:ℝ) ^ ((8.0:ℝ))),
      Real.logb 10 ((10:ℝ) ^ ((8.5:ℝ)))) ∉ campbell_mass_bins := by
    simp only [logb_ten_rpow, campbell_mass_bins, List.mem_cons,
      List.not_mem_nil, or_false, not_or, Prod.mk.injEq, not_and]
    norm_num
  have hhearbin : ∀ t ∈ hearin_thresholds,
      ¬ np_isclose (Real.logb 10 ((10:ℝ) ^ ((8.0:ℝ)))) t := by
    intro t ht
    obtain ⟨hlo, hhi⟩ := hearin_threshold_bounds t ht
    rw [logb_ten_rpow, np_isclose]
    intro habs
    have h1 : |(8.0:ℝ) - t| = t - 8.0 := by
      rw [abs_of_nonpos (by linarith)]
      ring
    have h2 : |t| ≤ 10.6 := by
      rw [abs_of_nonneg (by linarith)]
      exact hhi
    rw [h1] at habs
    nlinarith
  refine ⟨⟨Or.inl rfl, hyangbin, ?_⟩, ⟨Or.inl rfl, hzehbin, ?_⟩,
    ⟨Or.inr rfl, Or.inl rfl, hcampbin, ?_⟩, ⟨Or.inl rfl, hhearbin, ?_⟩⟩
  · exact C7_unsupported_bin_raises_before_read.1 _ _ _ _ (Or.inl rfl) hyangbin
  · exact C7_unsupported_bin_raises_before_read.2.1 _ _ _ _ _ (Or.inl rfl) hzehbin
  · exact C7_unsupported_bin_raises_before_read.2.2.1 _ _ _ _ _
      (Or.inr rfl) (Or.inl rfl) hcampbin
  · exact C7_unsupported_bin_raises_before_read.2.2.2 _ _ _ (Or.inl rfl) hhearbin

end LssObs
